import Mathlib

/-!
Shallow embedding of RStudio's session-launch profile subsystem
(`src/cpp/core/r_util/RSessionLaunchProfile.cpp`) and of the session
main-process fork/thread tracker (`src/cpp/session/SessionMainProcess.cpp`),
together with theorems settling the specification claims about them.
-/

/-- Error values returned by fallible operations (the C++ `core::Error`),
reduced to the message component relevant to these functions. -/
structure Err where
  msg : String
  deriving DecidableEq, Repr

/-- Modelled from the spec: `core::algorithm::join` on two strings with the
"|" separator, as used at line 231 of RSessionLaunchProfile.cpp. -/
def joinPipe (a b : String) : String :=
  a ++ "|" ++ b

/-- Modelled from the spec: `r_util::SessionScope` (declared outside src/) is
a (project, id) pair and `fromProjectId` is its pure structural constructor. -/
structure SessionScope where
  project : String
  id : String
  deriving DecidableEq, Repr

def SessionScope.fromProjectId (project : String) (id : String) : SessionScope :=
  ⟨project, id⟩

/-- Identity and scope of a session (`r_util::SessionContext`). -/
structure SessionContext where
  username : String
  scope : SessionScope
  deriving DecidableEq, Repr

/-- Resource limits carried by a launch profile. The six scalar limits are
`RLimitType` values (an unsigned 64-bit scalar per the spec), modelled as
unbounded naturals so that out-of-range values are expressible; `priority`
is a C++ `int`; `cpuAffinity` is a vector of booleans. -/
structure ResourceLimits where
  priority : Int
  memoryLimitBytes : Nat
  stackLimitBytes : Nat
  userProcessesLimit : Nat
  cpuLimit : Nat
  niceLimit : Nat
  filesLimit : Nat
  cpuAffinity : List Bool
  deriving DecidableEq, Repr

/-- Process invocation configuration (`core::system::ProcessConfig`, declared
outside src/; field shapes modelled from the spec's data model: `args` an
ordered sequence of strings, `environment` a string-to-string mapping kept
as an ordered pair list, `stdStreamBehavior` an integer-valued enum). -/
structure ProcessConfig where
  args : List String
  environment : List (String × String)
  stdInput : String
  stdStreamBehavior : Int
  limits : ResourceLimits
  deriving DecidableEq, Repr

/-- The session launch profile (`r_util::SessionLaunchProfile`). -/
structure SessionLaunchProfile where
  context : SessionContext
  password : String
  encryptionKey : String
  executablePath : String
  config : ProcessConfig
  deriving DecidableEq, Repr

/-- Modelled from the spec: `core::algorithm::split` (outside src/) on the
single-character delimiter "|", keeping empty tokens: the empty input yields
one empty part, and each delimiter occurrence starts a new part. -/
def splitPipeChars : List Char → List (List Char)
  | [] => [[]]
  | c :: cs =>
    match splitPipeChars cs with
    | [] => [[c]]
    | t :: ts => if c = '|' then [] :: t :: ts else (c :: t) :: ts

/-- String-level wrapper of `splitPipeChars`. -/
def splitPipe (s : String) : List String :=
  (splitPipeChars s.data).map String.mk

/-- Modelled from the spec: the cryptographic collaborators of the password
protocol (`core::system::crypto`, outside src/): a random byte source, a
symmetric cipher with base64 text framing producing an IV string and a
ciphertext string, and base64 encode/decode of raw key bytes. Keys are byte
lists; the C++ byte-for-byte copies between `std::vector<unsigned char>` and
`std::string` are identities at this level and are elided. -/
structure CryptoProvider where
  random : Nat → Except Err (List Nat)
  encryptDataAsBase64EncodedString : String → List Nat → Except Err (String × String)
  base64Encode : List Nat → Except Err String
  base64Decode : String → Except Err (List Nat)
  decryptBase64EncodedString : String → List Nat → String → Except Err String

/-- The C++ `unknownError` constructor, reduced to its message. -/
def unknownError (msg : String) : Err :=
  ⟨msg⟩

/-- Shallow embedding of `encryptProfilePassword` (RSessionLaunchProfile.cpp
lines 198-235). The C++ mutates the profile in place and writes the encrypted
password to an out-parameter; here the returned pair carries the profile as
left after the call together with the encrypted password or the error. -/
def encryptProfilePassword (c : CryptoProvider) (profile : SessionLaunchProfile) :
    SessionLaunchProfile × Except Err String :=
  match c.random 32 with
  | .error e => (profile, .error e)
  | .ok passwordKey =>
    match c.encryptDataAsBase64EncodedString profile.password passwordKey with
    | .error e => (profile, .error e)
    | .ok (ivPasswordKey, encryptedPassword) =>
      match c.base64Encode passwordKey with
      | .error e => (profile, .error e)
      | .ok base64PasswordKey =>
        ({ profile with
            password := "",
            encryptionKey := joinPipe base64PasswordKey ivPasswordKey },
         .ok encryptedPassword)

/-- Shallow embedding of `decryptProfilePassword` (RSessionLaunchProfile.cpp
lines 237-274): split the encryption key on "|" (exactly two parts required),
base64-decode the key part, decrypt the out-of-band ciphertext with key and
IV, and on success restore the password and clear the key. -/
def decryptProfilePassword (c : CryptoProvider) (profile : SessionLaunchProfile)
    (encryptedPassword : String) : SessionLaunchProfile × Except Err Unit :=
  match splitPipe profile.encryptionKey with
  | [passwordKey, ivPasswordKey] =>
    match c.base64Decode passwordKey with
    | .error e => (profile, .error e)
    | .ok passwordKeyBin =>
      match c.decryptBase64EncodedString encryptedPassword passwordKeyBin ivPasswordKey with
      | .error e => (profile, .error e)
      | .ok decryptedPassword =>
        ({ profile with password := decryptedPassword, encryptionKey := "" }, .ok ())
  | _ => (profile, .error (unknownError "Profile password encryption key invalid format"))

/-- Splitting a delimiter-free character list yields that single part. -/
theorem splitPipeChars_no_delim (l : List Char) (h : '|' ∉ l) :
    splitPipeChars l = [l] := by
  induction l with
  | nil => rfl
  | cons c cs ih =>
    have hc : c ≠ '|' := fun e => h (e ▸ List.mem_cons_self c cs)
    have hcs : '|' ∉ cs := fun m => h (List.mem_cons_of_mem c m)
    simp [splitPipeChars, ih hcs, hc]

/-- Splitting `a ++ '|' :: b` with both sides delimiter-free yields `[a, b]`. -/
theorem splitPipeChars_append (a b : List Char) (ha : '|' ∉ a) (hb : '|' ∉ b) :
    splitPipeChars (a ++ '|' :: b) = [a, b] := by
  induction a with
  | nil => simp [splitPipeChars, splitPipeChars_no_delim b hb]
  | cons c a' ih =>
    have hc : c ≠ '|' := fun e => ha (e ▸ List.mem_cons_self c a')
    have ha' : '|' ∉ a' := fun m => ha (List.mem_cons_of_mem c m)
    simp [splitPipeChars, ih ha', hc]

/-- String-level form: splitting a joined pair of delimiter-free strings
recovers exactly the two parts. -/
theorem splitPipe_joinPipe (a b : String) (ha : '|' ∉ a.data) (hb : '|' ∉ b.data) :
    splitPipe (joinPipe a b) = [a, b] := by
  have hdata : (joinPipe a b).data = a.data ++ '|' :: b.data := by
    simp [joinPipe, String.data_append]
  simp [splitPipe, hdata, splitPipeChars_append a.data b.data ha hb]

/-- A joined key is never the empty string. -/
theorem joinPipe_ne_empty (a b : String) : joinPipe a b ≠ "" := by
  intro h
  have hdata : (joinPipe a b).data = a.data ++ '|' :: b.data := by
    simp [joinPipe, String.data_append]
  have : (joinPipe a b).data = ([] : List Char) := by rw [h]
  rw [hdata] at this
  simp at this

/-- Empty session scope (C++ default construction). -/
def emptyScope : SessionScope :=
  ⟨"", ""⟩

/-- Empty session context (C++ default construction). -/
def emptyContext : SessionContext :=
  ⟨"", emptyScope⟩

/-- Zeroed resource limits. -/
def emptyLimits : ResourceLimits :=
  ⟨0, 0, 0, 0, 0, 0, 0, []⟩

/-- Empty process configuration. -/
def emptyProcessConfig : ProcessConfig :=
  ⟨[], [], "", 0, emptyLimits⟩

/-- Default-constructed launch profile. -/
def emptyProfile : SessionLaunchProfile :=
  ⟨emptyContext, "", "", "", emptyProcessConfig⟩

/-- Sample profile whose password contains the delimiter character. -/
def sampleProfile : SessionLaunchProfile :=
  { emptyProfile with password := "p|w" }

/-- Concrete instance of the crypto collaborators used to exercise theorems
on closed inputs: the random source returns the empty key, the cipher is the
identity with an empty IV, and base64 succeeds only on the empty byte list.
It satisfies the collaborator inverse laws by construction. -/
def trivCrypto : CryptoProvider where
  random _ := .ok []
  encryptDataAsBase64EncodedString pt _ := .ok ("", pt)
  base64Encode k := match k with | [] => .ok "" | _ :: _ => .error ⟨"base64Encode failed"⟩
  base64Decode _ := .ok []
  decryptBase64EncodedString ct _ _ := .ok ct

/-- Crypto collaborators whose random source always fails. -/
def failCrypto : CryptoProvider :=
  { trivCrypto with random := fun _ => .error ⟨"random failed"⟩ }

/-- The trivial provider satisfies the base64 inverse law. -/
theorem trivCrypto_base64_law (k : List Nat) (s : String)
    (h : trivCrypto.base64Encode k = .ok s) :
    '|' ∉ s.data ∧ trivCrypto.base64Decode s = .ok k := by
  cases k with
  | nil =>
    have hs : s = "" := by simpa [trivCrypto] using h.symm
    subst hs
    exact ⟨by decide, rfl⟩
  | cons a l => simp [trivCrypto] at h

/-- The trivial provider satisfies the cipher inverse law. -/
theorem trivCrypto_cipher_law (pt : String) (key : List Nat) (iv ct : String)
    (h : trivCrypto.encryptDataAsBase64EncodedString pt key = .ok (iv, ct)) :
    '|' ∉ iv.data ∧ trivCrypto.decryptBase64EncodedString ct key iv = .ok pt := by
  have hp : iv = "" ∧ ct = pt := by simpa [trivCrypto, Prod.ext_iff] using h.symm
  obtain ⟨hiv, hct⟩ := hp
  subst hiv hct
  exact ⟨by decide, rfl⟩

/-- C1: for every profile and password (including the empty password and
passwords containing the delimiter), if `encryptProfilePassword` succeeds
returning an encrypted blob, then `decryptProfilePassword` on the resulting
profile and that blob succeeds, restores the original password, and clears
the encryption key.  The collaborator hypotheses state the inverse laws of
the external base64 codec and cipher assumed by the spec (base64 text never
contains the delimiter, decode inverts encode, decrypt inverts encrypt). -/
theorem c1_encrypt_then_decrypt_restores (c : CryptoProvider)
    (profile p1 : SessionLaunchProfile) (blob : String)
    (hb64 : ∀ k s, c.base64Encode k = .ok s →
      '|' ∉ s.data ∧ c.base64Decode s = .ok k)
    (hcipher : ∀ pt key iv ct,
      c.encryptDataAsBase64EncodedString pt key = .ok (iv, ct) →
      '|' ∉ iv.data ∧ c.decryptBase64EncodedString ct key iv = .ok pt)
    (henc : encryptProfilePassword c profile = (p1, .ok blob)) :
    decryptProfilePassword c p1 blob =
      ({ p1 with password := profile.password, encryptionKey := "" }, .ok ()) := by
  unfold encryptProfilePassword at henc
  split at henc
  · simp at henc
  · split at henc
    · simp at henc
    · split at henc
      · simp at henc
      · rename_i x1 passwordKey hr x2 ivPasswordKey encryptedPassword he x3 base64PasswordKey hb
        simp only [Prod.mk.injEq, Except.ok.injEq] at henc
        obtain ⟨hp1, rfl⟩ := henc
        obtain ⟨hivnd, hdec⟩ := hcipher _ _ _ _ he
        obtain ⟨hb64nd, hb64dec⟩ := hb64 _ _ hb
        subst hp1
        simp only [decryptProfilePassword,
          splitPipe_joinPipe base64PasswordKey ivPasswordKey hb64nd hivnd,
          hb64dec, hdec]

/-- C1 witness at a concrete profile whose password contains the delimiter. -/
theorem c1_witness :
    decryptProfilePassword trivCrypto
        { sampleProfile with password := "", encryptionKey := "|" } "p|w" =
      ({ sampleProfile with password := "p|w", encryptionKey := "" }, .ok ()) :=
  c1_encrypt_then_decrypt_restores trivCrypto sampleProfile
    { sampleProfile with password := "", encryptionKey := "|" } "p|w"
    trivCrypto_base64_law trivCrypto_cipher_law rfl

/-- C2: whenever `encryptProfilePassword` succeeds, the resulting profile has
the empty password and a non-empty encryption key of the delimited form
base64-key "|" base64-IV. -/
theorem c2_encrypt_success_shape (c : CryptoProvider)
    (profile p1 : SessionLaunchProfile) (blob : String)
    (henc : encryptProfilePassword c profile = (p1, .ok blob)) :
    p1.password = "" ∧ p1.encryptionKey ≠ "" ∧
      ∃ base64PasswordKey ivPasswordKey,
        p1.encryptionKey = joinPipe base64PasswordKey ivPasswordKey := by
  unfold encryptProfilePassword at henc
  split at henc
  · simp at henc
  · split at henc
    · simp at henc
    · split at henc
      · simp at henc
      · rename_i x1 passwordKey hr x2 ivPasswordKey encryptedPassword he x3 base64PasswordKey hb
        simp only [Prod.mk.injEq, Except.ok.injEq] at henc
        obtain ⟨hp1, rfl⟩ := henc
        subst hp1
        exact ⟨rfl, joinPipe_ne_empty _ _, base64PasswordKey, ivPasswordKey, rfl⟩

/-- C2 witness at a concrete profile. -/
theorem c2_witness :
    ({ sampleProfile with password := "", encryptionKey := "|" }
        : SessionLaunchProfile).password = "" ∧
      ({ sampleProfile with password := "", encryptionKey := "|" }
        : SessionLaunchProfile).encryptionKey ≠ "" ∧
      ∃ base64PasswordKey ivPasswordKey,
        ({ sampleProfile with password := "", encryptionKey := "|" }
          : SessionLaunchProfile).encryptionKey =
          joinPipe base64PasswordKey ivPasswordKey :=
  c2_encrypt_success_shape trivCrypto sampleProfile
    { sampleProfile with password := "", encryptionKey := "|" } "p|w" rfl

/-- C3: whenever `encryptProfilePassword` or `decryptProfilePassword` returns
an error of any kind, the profile is exactly as it was before the call: both
operations mutate the profile only after every fallible step has succeeded. -/
theorem c3_error_leaves_profile_unchanged (c : CryptoProvider)
    (profile : SessionLaunchProfile) (encryptedPassword : String) :
    (∀ p1 e, encryptProfilePassword c profile = (p1, .error e) → p1 = profile) ∧
    (∀ p1 e, decryptProfilePassword c profile encryptedPassword = (p1, .error e) →
      p1 = profile) := by
  constructor
  · intro p1 e h
    unfold encryptProfilePassword at h
    split at h
    · simp only [Prod.mk.injEq] at h; exact h.1.symm
    · split at h
      · simp only [Prod.mk.injEq] at h; exact h.1.symm
      · split at h
        · simp only [Prod.mk.injEq] at h; exact h.1.symm
        · simp at h
  · intro p1 e h
    unfold decryptProfilePassword at h
    split at h
    · split at h
      · simp only [Prod.mk.injEq] at h; exact h.1.symm
      · split at h
        · simp only [Prod.mk.injEq] at h; exact h.1.symm
        · simp at h
    · simp only [Prod.mk.injEq] at h; exact h.1.symm

/-- C3 witness: a failing random source leaves the profile unchanged on
encryption, and an empty encryption key leaves it unchanged on decryption. -/
theorem c3_witness :
    (encryptProfilePassword failCrypto sampleProfile).1 = sampleProfile ∧
    (decryptProfilePassword trivCrypto sampleProfile "ct").1 = sampleProfile :=
  ⟨(c3_error_leaves_profile_unchanged failCrypto sampleProfile "ct").1
      (encryptProfilePassword failCrypto sampleProfile).1 ⟨"random failed"⟩ rfl,
   (c3_error_leaves_profile_unchanged trivCrypto sampleProfile "ct").2
      (decryptProfilePassword trivCrypto sampleProfile "ct").1
      (unknownError "Profile password encryption key invalid format") rfl⟩

/-- C6: whenever the profile's encryption key does not split on "|" into
exactly two parts, `decryptProfilePassword` fails with the fixed
invalid-key-format message and leaves the profile unchanged. -/
theorem c6_invalid_key_format (c : CryptoProvider)
    (profile : SessionLaunchProfile) (encryptedPassword : String)
    (h : (splitPipe profile.encryptionKey).length ≠ 2) :
    decryptProfilePassword c profile encryptedPassword =
      (profile, .error (unknownError "Profile password encryption key invalid format")) := by
  unfold decryptProfilePassword
  split
  · rename_i passwordKey ivPasswordKey heq
    exact absurd (by rw [heq]; rfl) h
  · rfl

/-- C6 witness: the empty key (one part) and a doubly delimited key (three
parts) both fail with the fixed message and leave the profile unchanged. -/
theorem c6_witness :
    decryptProfilePassword trivCrypto sampleProfile "ct" =
      (sampleProfile,
       .error (unknownError "Profile password encryption key invalid format")) ∧
    decryptProfilePassword trivCrypto
        { sampleProfile with encryptionKey := "a|b|c" } "ct" =
      ({ sampleProfile with encryptionKey := "a|b|c" },
       .error (unknownError "Profile password encryption key invalid format")) :=
  ⟨c6_invalid_key_format trivCrypto sampleProfile "ct" (by decide),
   c6_invalid_key_format trivCrypto
     { sampleProfile with encryptionKey := "a|b|c" } "ct" (by decide)⟩

/-- C10: a successful `encryptProfilePassword` modifies only the password and
encryptionKey fields; context, executablePath and the whole config are
untouched. -/
theorem c10_encrypt_frame (c : CryptoProvider)
    (profile p1 : SessionLaunchProfile) (blob : String)
    (henc : encryptProfilePassword c profile = (p1, .ok blob)) :
    p1.context = profile.context ∧ p1.executablePath = profile.executablePath ∧
      p1.config = profile.config := by
  unfold encryptProfilePassword at henc
  split at henc
  · simp at henc
  · split at henc
    · simp at henc
    · split at henc
      · simp at henc
      · simp only [Prod.mk.injEq, Except.ok.injEq] at henc
        obtain ⟨hp1, rfl⟩ := henc
        subst hp1
        exact ⟨rfl, rfl, rfl⟩

/-- C10 witness at a concrete profile and crypto instance. -/
theorem c10_witness :
    ({ sampleProfile with password := "", encryptionKey := "|" }
        : SessionLaunchProfile).context = sampleProfile.context ∧
    ({ sampleProfile with password := "", encryptionKey := "|" }
        : SessionLaunchProfile).executablePath = sampleProfile.executablePath ∧
    ({ sampleProfile with password := "", encryptionKey := "|" }
        : SessionLaunchProfile).config = sampleProfile.config :=
  c10_encrypt_frame trivCrypto sampleProfile
    { sampleProfile with password := "", encryptionKey := "|" } "p|w" rfl

/-- Structured values of the JSON collaborator library, restricted to what
this codec reads and writes; numbers are integer-valued (the codec only
writes integers and unsigned 64-bit limits). -/
inductive JVal where
  | jnull
  | jbool (b : Bool)
  | jint (n : Int)
  | jstr (s : String)
  | jarr (elems : List JVal)
  | jobj (fields : List (String × JVal))

/-- Base-2 logarithm computed by structural recursion on a fuel bound, so
that it evaluates inside the kernel; with fuel 64 it is exact for every
positive input below 2^64. -/
def log2Fuel : Nat → Nat → Nat
  | 0, _ => 0
  | fuel + 1, n => if n ≤ 1 then 0 else log2Fuel fuel (n / 2) + 1

/-- Value of the IEEE binary64 double nearest to the natural number `n`
(round to nearest, ties to even), modelling the conversion a JSON number
undergoes when the C++ reads it into a `double` local. Integers up to 2^53
are exactly representable; larger ones round to a multiple of the unit in
the last place (exact for inputs below 2^64, the range of the limit
fields). -/
def roundDouble (n : Nat) : Nat :=
  if n < 2 ^ 53 then n
  else
    let k := log2Fuel 64 n - 52
    let q := n / 2 ^ k
    let r := n % 2 ^ k
    let half := 2 ^ (k - 1)
    if r < half then q * 2 ^ k
    else if half < r then (q + 1) * 2 ^ k
    else if q % 2 = 0 then q * 2 ^ k else (q + 1) * 2 ^ k

/-- Signed version of `roundDouble`. -/
def roundDoubleInt (x : Int) : Int :=
  if x < 0 then -(roundDouble (-x).toNat : Int) else (roundDouble x.toNat : Int)

/-- The C++ narrowing of the decoded `double` into the unsigned 64-bit
`RLimitType` field: exact for values in the representable range, modelled as
0 outside it (where the C++ conversion is undefined behavior). -/
def uint64OfDouble (x : Int) : Nat :=
  if 0 ≤ x ∧ x < 2 ^ 64 then x.toNat else 0

/-- Shallow embedding of the anonymous-namespace `toJson(RLimitType)`
(RSessionLaunchProfile.cpp lines 74-84): the limit is converted to an
unsigned 64-bit JSON number, and a value that does not fit the target
encoding is replaced by 0 instead of propagating an error (the try/catch
around the conversion). -/
def toJsonLimit (limit : Nat) : JVal :=
  if limit < 2 ^ 64 then .jint (limit : Int) else .jint 0

/-- Member lookup in a JSON object. -/
def jLookup (fields : List (String × JVal)) (name : String) : Option JVal :=
  (fields.find? fun p => p.1 == name).map fun p => p.2

/-- Typed accessor: object. -/
def asObj : JVal → Option (List (String × JVal))
  | .jobj fields => some fields
  | _ => none

/-- Typed accessor: string. -/
def asStr : JVal → Option String
  | .jstr s => some s
  | _ => none

/-- Typed accessor: int. -/
def asInt : JVal → Option Int
  | .jint n => some n
  | _ => none

/-- Typed accessor: array. -/
def asArr : JVal → Option (List JVal)
  | .jarr elems => some elems
  | _ => none

/-- Typed accessor modelling a read into a C++ `double`: the stored integer
rounds to the nearest binary64 value. -/
def asDouble : JVal → Option Int
  | .jint n => some (roundDoubleInt n)
  | _ => none

/-- One member read of `json::readObject`: fails (`none`) when the member is
missing or has the wrong type. -/
def readField {α : Type} (obj : List (String × JVal)) (name : String)
    (conv : JVal → Option α) : Option α :=
  (jLookup obj name).bind conv

/-- Shallow embedding of `contextAsJson` (lines 33-40). -/
def contextAsJson (context : SessionContext) : List (String × JVal) :=
  [("username", .jstr context.username),
   ("project", .jstr context.scope.project),
   ("id", .jstr context.scope.id)]

/-- Modelled from the spec: the JSON library's encoding of the argument list
as an array of strings (wire shape of spec section 6). -/
def argsToJson (args : List String) : JVal :=
  .jarr (args.map .jstr)

/-- Modelled from the spec: the inverse read of the argument list; elements
that are strings are taken in order. -/
def argsFromJson (elems : List JVal) : List String :=
  elems.filterMap asStr

/-- Modelled from the spec: the JSON object encoding of the environment
mapping. -/
def envToJson (environment : List (String × String)) : List (String × JVal) :=
  environment.map fun p => (p.1, JVal.jstr p.2)

/-- Modelled from the spec: the `toStringPairList` read of the environment
object; members with string values are taken in order. -/
def envFromJson (fields : List (String × JVal)) : List (String × String) :=
  fields.filterMap fun p => (asStr p.2).map fun s => (p.1, s)

/-- Shallow embedding of `cpuAffinityFromJson` (lines 58-72): every array
element must be a boolean; the first element of any other type is a
ParamTypeMismatch error. -/
def cpuAffinityFromJson : List JVal → Except Err (List Bool)
  | [] => .ok []
  | .jbool b :: rest => (cpuAffinityFromJson rest).map fun l => b :: l
  | _ => .error ⟨"ParamTypeMismatch"⟩

/-- Shallow embedding of `sessionLaunchProfileToJson` (lines 89-111). -/
def sessionLaunchProfileToJson (profile : SessionLaunchProfile) :
    List (String × JVal) :=
  [("context", .jobj (contextAsJson profile.context)),
   ("password", .jstr profile.password),
   ("encryptionKey", .jstr profile.encryptionKey),
   ("executablePath", .jstr profile.executablePath),
   ("config", .jobj
     [("args", argsToJson profile.config.args),
      ("environment", .jobj (envToJson profile.config.environment)),
      ("stdInput", .jstr profile.config.stdInput),
      ("stdStreamBehavior", .jint profile.config.stdStreamBehavior),
      ("priority", .jint profile.config.limits.priority),
      ("memoryLimitBytes", toJsonLimit profile.config.limits.memoryLimitBytes),
      ("stackLimitBytes", toJsonLimit profile.config.limits.stackLimitBytes),
      ("userProcessesLimit", toJsonLimit profile.config.limits.userProcessesLimit),
      ("cpuLimit", toJsonLimit profile.config.limits.cpuLimit),
      ("niceLimit", toJsonLimit profile.config.limits.niceLimit),
      ("filesLimit", toJsonLimit profile.config.limits.filesLimit),
      ("cpuAffinity", .jarr (profile.config.limits.cpuAffinity.map .jbool))])]

/-- Shallow embedding of `contextFromJson` (lines 42-55): `readObject` reads
username (assigned directly into the context), then project and id into
locals, stopping at the first missing or mistyped member; on full success
the scope is rebuilt via `SessionScope.fromProjectId`. The caller only logs
a failure, so the model returns the context state the call leaves behind. -/
def contextFromJson (contextJson : List (String × JVal))
    (ctx0 : SessionContext) : SessionContext :=
  match readField contextJson "username" asStr with
  | none => ctx0
  | some username =>
    match readField contextJson "project" asStr with
    | none => { ctx0 with username := username }
    | some project =>
      match readField contextJson "id" asStr with
      | none => { ctx0 with username := username }
      | some id =>
        { ctx0 with
            username := username,
            scope := SessionScope.fromProjectId project id }

/-- Outcome of the top-level `readObject` call of
`sessionLaunchProfileFromJson` (lines 119-126). -/
structure TopLevelRead where
  contextJson : List (String × JVal)
  password : String
  encryptionKey : String
  executablePath : String
  configJson : List (String × JVal)

/-- Top-level `readObject` (lines 119-126): the five members are read and
assigned in order, and the first missing or mistyped member stops the call,
leaving the later fields at their defaults (the error itself is logged and
swallowed by the caller). -/
def readTopLevel (jsonProfile : List (String × JVal)) : TopLevelRead :=
  match readField jsonProfile "context" asObj with
  | none => ⟨[], "", "", "", []⟩
  | some contextJson =>
    match readField jsonProfile "password" asStr with
    | none => ⟨contextJson, "", "", "", []⟩
    | some password =>
      match readField jsonProfile "encryptionKey" asStr with
      | none => ⟨contextJson, password, "", "", []⟩
      | some encryptionKey =>
        match readField jsonProfile "executablePath" asStr with
        | none => ⟨contextJson, password, encryptionKey, "", []⟩
        | some executablePath =>
          match readField jsonProfile "config" asObj with
          | none => ⟨contextJson, password, encryptionKey, executablePath, []⟩
          | some configJson =>
            ⟨contextJson, password, encryptionKey, executablePath, configJson⟩

/-- Outcome of the config-level `readObject` call (lines 141-152). The six
limit members are read into `double` locals that are declared at lines
139-140 without initializers, so their contents when the call stops before
assigning them is indeterminate: the model threads that indeterminate
content in as the `junk` parameter. -/
structure ConfigRead where
  argsJson : List JVal
  envJson : List (String × JVal)
  stdInput : String
  stdStreamBehavior : Int
  priority : Int
  memoryLimitBytes : Int
  stackLimitBytes : Int
  userProcessesLimit : Int
  cpuLimit : Int
  niceLimit : Int
  filesLimit : Int

/-- Config-level `readObject` (lines 141-152), same sequential
first-error-stops discipline as the top level. -/
def readConfig (junk : Int) (configJson : List (String × JVal)) : ConfigRead :=
  let r0 : ConfigRead := ⟨[], [], "", 0, 0, junk, junk, junk, junk, junk, junk⟩
  match readField configJson "args" asArr with
  | none => r0
  | some argsJson =>
    let r1 := { r0 with argsJson := argsJson }
    match readField configJson "environment" asObj with
    | none => r1
    | some envJson =>
      let r2 := { r1 with envJson := envJson }
      match readField configJson "stdInput" asStr with
      | none => r2
      | some stdInput =>
        let r3 := { r2 with stdInput := stdInput }
        match readField configJson "stdStreamBehavior" asInt with
        | none => r3
        | some stdStreamBehavior =>
          let r4 := { r3 with stdStreamBehavior := stdStreamBehavior }
          match readField configJson "priority" asInt with
          | none => r4
          | some priority =>
            let r5 := { r4 with priority := priority }
            match readField configJson "memoryLimitBytes" asDouble with
            | none => r5
            | some memoryLimitBytes =>
              let r6 := { r5 with memoryLimitBytes := memoryLimitBytes }
              match readField configJson "stackLimitBytes" asDouble with
              | none => r6
              | some stackLimitBytes =>
                let r7 := { r6 with stackLimitBytes := stackLimitBytes }
                match readField configJson "userProcessesLimit" asDouble with
                | none => r7
                | some userProcessesLimit =>
                  let r8 := { r7 with userProcessesLimit := userProcessesLimit }
                  match readField configJson "cpuLimit" asDouble with
                  | none => r8
                  | some cpuLimit =>
                    let r9 := { r8 with cpuLimit := cpuLimit }
                    match readField configJson "niceLimit" asDouble with
                    | none => r9
                    | some niceLimit =>
                      let r10 := { r9 with niceLimit := niceLimit }
                      match readField configJson "filesLimit" asDouble with
                      | none => r10
                      | some filesLimit =>
                        { r10 with filesLimit := filesLimit }

/-- Clear-on-error policy of the affinity sub-decode (lines 163-168): a
ParamTypeMismatch in the affinity array clears the set to empty. -/
def affinityOrEmpty (r : Except Err (List Bool)) : List Bool :=
  match r with
  | .ok a => a
  | .error _ => []

/-- Shallow embedding of `sessionLaunchProfileFromJson` (lines 113-187).
Every read error is logged and swallowed, so the function always returns a
profile; `junk` models the indeterminate contents of the six uninitialized
double locals of lines 139-140, which reach the returned profile whenever
the config read stops before assigning them (line 177 onward copies the
locals unconditionally). -/
def sessionLaunchProfileFromJson (junk : Int)
    (jsonProfile : List (String × JVal)) : SessionLaunchProfile :=
  let t := readTopLevel jsonProfile
  let context := contextFromJson t.contextJson emptyContext
  let c := readConfig junk t.configJson
  let cpuAffinityJson := (readField t.configJson "cpuAffinity" asArr).getD []
  let cpuAffinity := affinityOrEmpty (cpuAffinityFromJson cpuAffinityJson)
  { context := context,
    password := t.password,
    encryptionKey := t.encryptionKey,
    executablePath := t.executablePath,
    config :=
      { args := argsFromJson c.argsJson,
        environment := envFromJson c.envJson,
        stdInput := c.stdInput,
        stdStreamBehavior := c.stdStreamBehavior,
        limits :=
          { priority := c.priority,
            memoryLimitBytes := uint64OfDouble c.memoryLimitBytes,
            stackLimitBytes := uint64OfDouble c.stackLimitBytes,
            userProcessesLimit := uint64OfDouble c.userProcessesLimit,
            cpuLimit := uint64OfDouble c.cpuLimit,
            niceLimit := uint64OfDouble c.niceLimit,
            filesLimit := uint64OfDouble c.filesLimit,
            cpuAffinity := cpuAffinity } } }

/-- Values below 2^53 are exactly representable doubles. -/
theorem roundDouble_of_lt (n : Nat) (h : n < 2 ^ 53) : roundDouble n = n := by
  unfold roundDouble
  rw [if_pos h]

/-- A limit below 2^53 survives the write-as-uint64, read-as-double,
store-as-uint64 pipeline unchanged. -/
theorem limit_double_roundtrip (n : Nat) (h : n < 2 ^ 53) :
    uint64OfDouble (roundDoubleInt (n : Int)) = n := by
  have h0 : ¬((n : Int) < 0) := by omega
  have h1 : (n : Int).toNat = n := by omega
  unfold roundDoubleInt
  rw [if_neg h0, h1, roundDouble_of_lt n h]
  unfold uint64OfDouble
  have h2 : (0 : Int) ≤ (n : Int) ∧ (n : Int) < 2 ^ 64 := by
    refine ⟨by omega, ?_⟩
    have hcast : (n : Int) < 2 ^ 53 := by exact_mod_cast h
    calc (n : Int) < 2 ^ 53 := hcast
      _ < 2 ^ 64 := by norm_num
  rw [if_pos h2]
  omega

/-- A limit below 2^53 fits the unsigned 64-bit encoding. -/
theorem toJsonLimit_of_lt (n : Nat) (h : n < 2 ^ 53) :
    toJsonLimit n = .jint (n : Int) := by
  unfold toJsonLimit
  rw [if_pos (lt_trans h (by norm_num))]

/-- The argument-list conversions are mutually inverse. -/
theorem argsFromJson_map_jstr (args : List String) :
    argsFromJson (args.map JVal.jstr) = args := by
  induction args with
  | nil => rfl
  | cons a l ih =>
    simp only [argsFromJson, List.map_cons, List.filterMap_cons, asStr] at ih ⊢
    rw [ih]

/-- The environment conversions are mutually inverse. -/
theorem envFromJson_envToJson (environment : List (String × String)) :
    envFromJson (envToJson environment) = environment := by
  induction environment with
  | nil => rfl
  | cons p l ih =>
    simp only [envFromJson, envToJson, List.map_cons, List.filterMap_cons, asStr,
      Option.map_some'] at ih ⊢
    rw [ih]

/-- Decoding an all-boolean affinity array recovers it. -/
theorem cpuAffinityFromJson_map_jbool (bs : List Bool) :
    cpuAffinityFromJson (bs.map JVal.jbool) = .ok bs := by
  induction bs with
  | nil => rfl
  | cons b l ih =>
    simp only [List.map_cons, cpuAffinityFromJson, ih, Except.map]

/-- Full round-trip of the profile codec under the binary64-representability
proviso on the six limit values. -/
theorem fromJson_toJson_eq (junk : Int) (profile : SessionLaunchProfile)
    (hm : profile.config.limits.memoryLimitBytes < 2 ^ 53)
    (hst : profile.config.limits.stackLimitBytes < 2 ^ 53)
    (hu : profile.config.limits.userProcessesLimit < 2 ^ 53)
    (hcl : profile.config.limits.cpuLimit < 2 ^ 53)
    (hni : profile.config.limits.niceLimit < 2 ^ 53)
    (hfi : profile.config.limits.filesLimit < 2 ^ 53) :
    sessionLaunchProfileFromJson junk (sessionLaunchProfileToJson profile) =
      profile := by
  obtain ⟨⟨username, ⟨sproject, sid⟩⟩, password, encryptionKey, executablePath,
    ⟨args, environment, stdInput, ssb, ⟨prio, m, st, up, cl, ni, fi, aff⟩⟩⟩ := profile
  dsimp only at hm hst hu hcl hni hfi
  unfold sessionLaunchProfileToJson
  dsimp only
  rw [toJsonLimit_of_lt _ hm, toJsonLimit_of_lt _ hst, toJsonLimit_of_lt _ hu,
      toJsonLimit_of_lt _ hcl, toJsonLimit_of_lt _ hni, toJsonLimit_of_lt _ hfi]
  show (⟨⟨username, ⟨sproject, sid⟩⟩, password, encryptionKey, executablePath,
      ⟨argsFromJson (args.map JVal.jstr),
       envFromJson (envToJson environment),
       stdInput, ssb,
       ⟨prio,
        uint64OfDouble (roundDoubleInt (m : Int)),
        uint64OfDouble (roundDoubleInt (st : Int)),
        uint64OfDouble (roundDoubleInt (up : Int)),
        uint64OfDouble (roundDoubleInt (cl : Int)),
        uint64OfDouble (roundDoubleInt (ni : Int)),
        uint64OfDouble (roundDoubleInt (fi : Int)),
        affinityOrEmpty (cpuAffinityFromJson (aff.map JVal.jbool))⟩⟩⟩
      : SessionLaunchProfile) = _
  rw [argsFromJson_map_jstr, envFromJson_envToJson,
      limit_double_roundtrip m hm, limit_double_roundtrip st hst,
      limit_double_roundtrip up hu, limit_double_roundtrip cl hcl,
      limit_double_roundtrip ni hni, limit_double_roundtrip fi hfi,
      cpuAffinityFromJson_map_jbool]
  rfl

/-- C4 (amended): for every profile whose six limit values are below 2^53
(the integers a binary64 double represents exactly; the decoder reads the
limits through double locals, so larger values are rounded), decoding the
encoding reproduces username, project, id, executablePath, args,
environment, stdInput, stdStreamBehavior, the six limit values, priority
and the cpuAffinity booleans exactly. -/
theorem c4_roundtrip_except_password (profile : SessionLaunchProfile) (junk : Int)
    (hm : profile.config.limits.memoryLimitBytes < 2 ^ 53)
    (hst : profile.config.limits.stackLimitBytes < 2 ^ 53)
    (hu : profile.config.limits.userProcessesLimit < 2 ^ 53)
    (hcl : profile.config.limits.cpuLimit < 2 ^ 53)
    (hni : profile.config.limits.niceLimit < 2 ^ 53)
    (hfi : profile.config.limits.filesLimit < 2 ^ 53) :
    (sessionLaunchProfileFromJson junk
        (sessionLaunchProfileToJson profile)).context.username =
        profile.context.username ∧
    (sessionLaunchProfileFromJson junk
        (sessionLaunchProfileToJson profile)).context.scope.project =
        profile.context.scope.project ∧
    (sessionLaunchProfileFromJson junk
        (sessionLaunchProfileToJson profile)).context.scope.id =
        profile.context.scope.id ∧
    (sessionLaunchProfileFromJson junk
        (sessionLaunchProfileToJson profile)).executablePath =
        profile.executablePath ∧
    (sessionLaunchProfileFromJson junk
        (sessionLaunchProfileToJson profile)).config.args =
        profile.config.args ∧
    (sessionLaunchProfileFromJson junk
        (sessionLaunchProfileToJson profile)).config.environment =
        profile.config.environment ∧
    (sessionLaunchProfileFromJson junk
        (sessionLaunchProfileToJson profile)).config.stdInput =
        profile.config.stdInput ∧
    (sessionLaunchProfileFromJson junk
        (sessionLaunchProfileToJson profile)).config.stdStreamBehavior =
        profile.config.stdStreamBehavior ∧
    (sessionLaunchProfileFromJson junk
        (sessionLaunchProfileToJson profile)).config.limits.memoryLimitBytes =
        profile.config.limits.memoryLimitBytes ∧
    (sessionLaunchProfileFromJson junk
        (sessionLaunchProfileToJson profile)).config.limits.stackLimitBytes =
        profile.config.limits.stackLimitBytes ∧
    (sessionLaunchProfileFromJson junk
        (sessionLaunchProfileToJson profile)).config.limits.userProcessesLimit =
        profile.config.limits.userProcessesLimit ∧
    (sessionLaunchProfileFromJson junk
        (sessionLaunchProfileToJson profile)).config.limits.cpuLimit =
        profile.config.limits.cpuLimit ∧
    (sessionLaunchProfileFromJson junk
        (sessionLaunchProfileToJson profile)).config.limits.niceLimit =
        profile.config.limits.niceLimit ∧
    (sessionLaunchProfileFromJson junk
        (sessionLaunchProfileToJson profile)).config.limits.filesLimit =
        profile.config.limits.filesLimit ∧
    (sessionLaunchProfileFromJson junk
        (sessionLaunchProfileToJson profile)).config.limits.priority =
        profile.config.limits.priority ∧
    (sessionLaunchProfileFromJson junk
        (sessionLaunchProfileToJson profile)).config.limits.cpuAffinity =
        profile.config.limits.cpuAffinity := by
  rw [fromJson_toJson_eq junk profile hm hst hu hcl hni hfi]
  exact ⟨rfl, rfl, rfl, rfl, rfl, rfl, rfl, rfl, rfl, rfl, rfl, rfl, rfl, rfl,
    rfl, rfl⟩

/-- Populated profile used to exercise the codec on a closed input. -/
def richProfile : SessionLaunchProfile :=
  { context := ⟨"alice", ⟨"proj", "42"⟩⟩,
    password := "s3cr3t",
    encryptionKey := "",
    executablePath := "/usr/lib/rsession",
    config :=
      { args := ["--flag", "--verbose"],
        environment := [("HOME", "/home/alice"), ("LANG", "C")],
        stdInput := "stdin-data",
        stdStreamBehavior := 2,
        limits :=
          { priority := -3,
            memoryLimitBytes := 2000000000,
            stackLimitBytes := 8192,
            userProcessesLimit := 100,
            cpuLimit := 4,
            niceLimit := 19,
            filesLimit := 1024,
            cpuAffinity := [true, false, true] } } }

/-- C4 witness: the amended round trip evaluated on a populated profile. -/
theorem c4_witness :
    (sessionLaunchProfileFromJson 0
        (sessionLaunchProfileToJson richProfile)).context.username =
        richProfile.context.username ∧
    (sessionLaunchProfileFromJson 0
        (sessionLaunchProfileToJson richProfile)).context.scope.project =
        richProfile.context.scope.project ∧
    (sessionLaunchProfileFromJson 0
        (sessionLaunchProfileToJson richProfile)).context.scope.id =
        richProfile.context.scope.id ∧
    (sessionLaunchProfileFromJson 0
        (sessionLaunchProfileToJson richProfile)).executablePath =
        richProfile.executablePath ∧
    (sessionLaunchProfileFromJson 0
        (sessionLaunchProfileToJson richProfile)).config.args =
        richProfile.config.args ∧
    (sessionLaunchProfileFromJson 0
        (sessionLaunchProfileToJson richProfile)).config.environment =
        richProfile.config.environment ∧
    (sessionLaunchProfileFromJson 0
        (sessionLaunchProfileToJson richProfile)).config.stdInput =
        richProfile.config.stdInput ∧
    (sessionLaunchProfileFromJson 0
        (sessionLaunchProfileToJson richProfile)).config.stdStreamBehavior =
        richProfile.config.stdStreamBehavior ∧
    (sessionLaunchProfileFromJson 0
        (sessionLaunchProfileToJson richProfile)).config.limits.memoryLimitBytes =
        richProfile.config.limits.memoryLimitBytes ∧
    (sessionLaunchProfileFromJson 0
        (sessionLaunchProfileToJson richProfile)).config.limits.stackLimitBytes =
        richProfile.config.limits.stackLimitBytes ∧
    (sessionLaunchProfileFromJson 0
        (sessionLaunchProfileToJson richProfile)).config.limits.userProcessesLimit =
        richProfile.config.limits.userProcessesLimit ∧
    (sessionLaunchProfileFromJson 0
        (sessionLaunchProfileToJson richProfile)).config.limits.cpuLimit =
        richProfile.config.limits.cpuLimit ∧
    (sessionLaunchProfileFromJson 0
        (sessionLaunchProfileToJson richProfile)).config.limits.niceLimit =
        richProfile.config.limits.niceLimit ∧
    (sessionLaunchProfileFromJson 0
        (sessionLaunchProfileToJson richProfile)).config.limits.filesLimit =
        richProfile.config.limits.filesLimit ∧
    (sessionLaunchProfileFromJson 0
        (sessionLaunchProfileToJson richProfile)).config.limits.priority =
        richProfile.config.limits.priority ∧
    (sessionLaunchProfileFromJson 0
        (sessionLaunchProfileToJson richProfile)).config.limits.cpuAffinity =
        richProfile.config.limits.cpuAffinity :=
  c4_roundtrip_except_password richProfile 0 (by decide) (by decide)
    (by decide) (by decide) (by decide) (by decide)

/-- Profile with a non-empty plaintext password (so it lies in the domain
the round-trip claim quantifies over) whose memory limit is 2^53 + 1, an
integer not representable as a binary64 double. -/
def bigLimitProfile : SessionLaunchProfile :=
  { emptyProfile with
      password := "s3cr3t",
      config :=
        { emptyProfile.config with
            limits :=
              { emptyProfile.config.limits with
                  memoryLimitBytes := 2 ^ 53 + 1 } } }

/-- C4 counterexample: at a profile with a non-empty plaintext password and
a memory limit of 2^53 + 1, decoding the encoding does not reproduce the
limit bit-for-bit (the decoder reads it through a double local and gets
2^53 back), so the claim as stated fails at an in-domain input. -/
theorem c4_counterexample :
    bigLimitProfile.password ≠ "" ∧
    (sessionLaunchProfileFromJson 0
        (sessionLaunchProfileToJson bigLimitProfile)).config.limits.memoryLimitBytes ≠
      bigLimitProfile.config.limits.memoryLimitBytes := by
  constructor
  · decide
  · decide

/-- C5: at the failing input (the empty JSON object, so the config read
stops before assigning the uninitialized double locals) with indeterminate
stack contents 7, the decoder returns a profile whose limit fields hold 7,
not the claimed default 0; the other unread fields do take their defaults. -/
theorem c5_uninitialized_limits_bug :
    (sessionLaunchProfileFromJson 7 []).config.limits.memoryLimitBytes = 7 ∧
    (sessionLaunchProfileFromJson 7 []).config.limits.filesLimit = 7 ∧
    (sessionLaunchProfileFromJson 7 []).config.limits.memoryLimitBytes ≠ 0 ∧
    (sessionLaunchProfileFromJson 7 []).password = "" ∧
    (sessionLaunchProfileFromJson 7 []).config.args = [] := by
  refine ⟨rfl, rfl, ?_, rfl, rfl⟩
  decide

/-- C7: the limit encoder is a total function: a value that fits the
unsigned 64-bit target encoding is encoded as itself, and a value that does
not fit is encoded as exactly 0 -- no error is ever signalled. -/
theorem c7_limit_encoder_policy (limit : Nat) :
    (limit < 2 ^ 64 → toJsonLimit limit = .jint (limit : Int)) ∧
    (2 ^ 64 ≤ limit → toJsonLimit limit = .jint 0) := by
  constructor
  · intro h
    unfold toJsonLimit
    rw [if_pos h]
  · intro h
    unfold toJsonLimit
    rw [if_neg (Nat.not_lt.mpr h)]

/-- C7 witness: a fitting value encodes as itself and 2^64 encodes as 0. -/
theorem c7_witness :
    toJsonLimit 5 = .jint 5 ∧ toJsonLimit (2 ^ 64) = .jint 0 :=
  ⟨(c7_limit_encoder_policy 5).1 (by norm_num),
   (c7_limit_encoder_policy (2 ^ 64)).2 (le_refl _)⟩

/-- Process-wide tracker state of SessionMainProcess.cpp (lines 31-36):
`s_mainThreadId` (default-constructed, modelled as `none` before init),
`s_wasForked` (initially false), and the `t_isMainThread` thread-local
slots, modelled as a per-thread boolean map; the C++ stores a pointer to
`true` only in the slot of the thread that ran `initThreadId`, and reading
an unset slot yields a null pointer, which converts to false. -/
structure TrackerState where
  mainThreadId : Option Nat
  wasForked : Bool
  isMainThreadLocal : Nat → Bool

/-- Events the tracker reacts to: `initThreadId` executed by thread `t`
(lines 97-105), the pre-fork and fork-parent hooks executed by thread `t`
(lines 47-62), and the fork-child hook (lines 64-67). -/
inductive TrackerEv where
  | init (t : Nat)
  | prepareFork (t : Nat)
  | atForkParent (t : Nat)
  | atForkChild
  deriving DecidableEq

/-- One tracker transition. `hooksInstalled` records whether
`setupForkHandlers` registered the fork hooks (Unix, lines 69-74) or was the
Windows no-op (lines 76-79): without hooks the fork events run no handler
and leave the state unchanged. `prepareFork` and `atForkParent` only bail
out early off the main thread and touch no tracker state on either path;
`atForkChild` unconditionally sets `s_wasForked`; `init` records the calling
thread and sets its thread-local slot. -/
def stepTracker (hooksInstalled : Bool) (s : TrackerState) : TrackerEv → TrackerState
  | .init t =>
    { s with
        mainThreadId := some t,
        isMainThreadLocal := fun u => if u = t then true else s.isMainThreadLocal u }
  | .prepareFork _ => s
  | .atForkParent _ => s
  | .atForkChild => if hooksInstalled then { s with wasForked := true } else s

/-- Tracker state at process start: no recorded main thread, not forked, all
thread-local slots unset. -/
def initialTracker : TrackerState :=
  ⟨none, false, fun _ => false⟩

/-- Tracker state reached from process start by a sequence of events. -/
def runTracker (hooksInstalled : Bool) (evs : List TrackerEv) : TrackerState :=
  evs.foldl (stepTracker hooksInstalled) initialTracker

/-- Shallow embedding of `wasForked()` (lines 39-42): a plain read of
`s_wasForked`. -/
def wasForked (s : TrackerState) : Bool :=
  s.wasForked

/-- Shallow embedding of `isMainThread()` (lines 89-95) evaluated on thread
`t`: the returned value is the thread-local flag; the `sysIsMainThread`
comparison at lines 92-93 only logs a diagnostic and never changes the
result. -/
def isMainThread (s : TrackerState) (t : Nat) : Bool :=
  s.isMainThreadLocal t

/-- Recognizer for the fork-child event. -/
def isForkChildEv : TrackerEv → Bool
  | .atForkChild => true
  | _ => false

/-- Recognizer for the init event. -/
def isInitEv : TrackerEv → Bool
  | .init _ => true
  | _ => false

/-- The forked flag after any event sequence: set iff the hooks are
installed and some fork-child event occurred (or it was set before). -/
theorem foldl_wasForked (h : Bool) (evs : List TrackerEv) :
    ∀ s : TrackerState,
      (evs.foldl (stepTracker h) s).wasForked =
        (s.wasForked || (h && evs.any isForkChildEv)) := by
  induction evs with
  | nil => intro s; simp
  | cons e l ih =>
    intro s
    cases e with
    | init t => simp [stepTracker, ih, isForkChildEv]
    | prepareFork t => simp [stepTracker, ih, isForkChildEv]
    | atForkParent t => simp [stepTracker, ih, isForkChildEv]
    | atForkChild =>
      cases h with
      | true => simp [stepTracker, ih, isForkChildEv]
      | false => simp [stepTracker, ih, isForkChildEv]

/-- The thread-local slots are untouched by traces without init events. -/
theorem foldl_isMainThreadLocal_no_init (h : Bool) :
    ∀ (evs : List TrackerEv) (s : TrackerState),
      (∀ e ∈ evs, isInitEv e = false) →
      (evs.foldl (stepTracker h) s).isMainThreadLocal = s.isMainThreadLocal := by
  intro evs
  induction evs with
  | nil => intro s _; rfl
  | cons e l ih =>
    intro s hno
    have he := hno e (List.mem_cons_self e l)
    have hl : ∀ x ∈ l, isInitEv x = false :=
      fun x hx => hno x (List.mem_cons_of_mem e hx)
    cases e with
    | init t => simp [isInitEv] at he
    | prepareFork t => exact ih _ hl
    | atForkParent t => exact ih _ hl
    | atForkChild =>
      rw [List.foldl_cons, ih _ hl]
      cases h <;> rfl

/-- C8: in every reachable tracker state, `wasForked()` is false before any
fork-child hook has run and true in any state after one has run; a single
step never resets it from true to false; and with the fork hooks not
installed (non-Unix) it is false in every reachable state. -/
theorem c8_fork_tracker (evs : List TrackerEv) (s : TrackerState) (e : TrackerEv) :
    (evs.any isForkChildEv = false → wasForked (runTracker true evs) = false) ∧
    (evs.any isForkChildEv = true → wasForked (runTracker true evs) = true) ∧
    (wasForked s = true → wasForked (stepTracker true s e) = true) ∧
    wasForked (runTracker false evs) = false := by
  refine ⟨?_, ?_, ?_, ?_⟩
  · intro h
    simp [wasForked, runTracker, foldl_wasForked, initialTracker, h]
  · intro h
    simp [wasForked, runTracker, foldl_wasForked, initialTracker, h]
  · intro h
    cases e <;> simp_all [wasForked, stepTracker]
  · simp [wasForked, runTracker, foldl_wasForked, initialTracker]

/-- C8 witness: concrete traces before a fork, after a fork-child hook, and
with the hooks not installed. -/
theorem c8_witness :
    wasForked (runTracker true [.init 0, .prepareFork 0]) = false ∧
    wasForked (runTracker true [.init 0, .atForkChild, .prepareFork 1]) = true ∧
    wasForked (runTracker false [.init 0, .atForkChild]) = false :=
  ⟨(c8_fork_tracker [.init 0, .prepareFork 0] initialTracker .atForkChild).1
      (by decide),
   (c8_fork_tracker [.init 0, .atForkChild, .prepareFork 1] initialTracker
      .atForkChild).2.1 (by decide),
   (c8_fork_tracker [.init 0, .atForkChild] initialTracker .atForkChild).2.2.2⟩

/-- C9: after `initThreadId` has run exactly once, executed by thread `t0`
(a trace with one init event and no other), `isMainThread` returns true when
asked from `t0` and false from every other thread. -/
theorem c9_main_thread_identity (h : Bool) (evs1 evs2 : List TrackerEv)
    (t0 t : Nat)
    (h1 : ∀ e ∈ evs1, isInitEv e = false)
    (h2 : ∀ e ∈ evs2, isInitEv e = false) :
    isMainThread (runTracker h (evs1 ++ .init t0 :: evs2)) t0 = true ∧
    (t ≠ t0 → isMainThread (runTracker h (evs1 ++ .init t0 :: evs2)) t = false) := by
  unfold runTracker isMainThread
  rw [List.foldl_append, List.foldl_cons,
      foldl_isMainThreadLocal_no_init h evs2 _ h2]
  have hbase := foldl_isMainThreadLocal_no_init h evs1 initialTracker h1
  constructor
  · simp [stepTracker]
  · intro hne
    simp only [stepTracker, if_neg hne]
    rw [hbase]
    rfl

/-- C9 witness: a concrete trace where thread 0 runs `initThreadId`; thread
0 is then the main thread and thread 1 is not. -/
theorem c9_witness :
    isMainThread (runTracker true [.prepareFork 1, .init 0, .atForkChild]) 0 =
      true ∧
    isMainThread (runTracker true [.prepareFork 1, .init 0, .atForkChild]) 1 =
      false :=
  ⟨(c9_main_thread_identity true [.prepareFork 1] [.atForkChild] 0 1
      (by decide) (by decide)).1,
   (c9_main_thread_identity true [.prepareFork 1] [.atForkChild] 0 1
      (by decide) (by decide)).2 (by decide)⟩
